import Mathlib

/-!
Verification development for the BNGC Shopify gift-card fulfillment server
(`src/server.js`).  The JavaScript pipeline is shallowly embedded: JS values
appearing in the webhook payload are modelled by `JsValue` (with JS truthiness
and `Number(...)` coercion, NaN encoded as `none`), external network calls
(Shopify GraphQL reads/writes, the gift-card worker, SMTP) are modelled by an
oracle `World` supplying each call's outcome, and the `orders_paid` route
handler is the function `handleOrdersPaid`, which returns the HTTP outcome
together with a trace of the observable side effects (issuance calls, the
email attempt, the metafields write, the logged error message).
-/

namespace BNGC

/-- A JSON/JS value as it can appear in a webhook payload field.
JS numbers are modelled as rationals (JSON literals are decimal). -/
inductive JsValue where
  | num (q : ℚ)
  | str (s : String)
  | nullv
deriving DecidableEq, Repr

/-- JS truthiness of a payload value: `0`, `""` and `null` are falsy. -/
def jsTruthy : JsValue → Bool
  | .num q => q != 0
  | .str s => s != ""
  | .nullv => false

/-- `a || d` for an optional payload field (`undefined` when absent). -/
def jsOr (a : Option JsValue) (d : JsValue) : JsValue :=
  match a with
  | some v => if jsTruthy v then v else d
  | none => d

/-- `a || d` for an optional string field (`undefined`/`""` are falsy). -/
def jsOrStr (a : Option String) (d : String) : String :=
  match a with
  | some s => if s = "" then d else s
  | none => d

/-- Numeric value of a digit list (most significant first). -/
def natOfDigits (cs : List Char) : Nat :=
  cs.foldl (fun a c => 10 * a + (c.toNat - 48)) 0

/-- Parse an unsigned decimal numeral `digits [. digits]`, as accepted by the
JS `Number` coercion on the decimal fragment; `none` means NaN. -/
def parseUnsignedDec (cs : List Char) : Option ℚ :=
  let intPart := cs.takeWhile Char.isDigit
  let rest := cs.dropWhile Char.isDigit
  match rest with
  | [] => if intPart = [] then none else some (natOfDigits intPart)
  | '.' :: fr =>
    let frac := fr.takeWhile Char.isDigit
    if fr.dropWhile Char.isDigit ≠ [] then none
    else if intPart = [] ∧ frac = [] then none
    else some ((natOfDigits intPart : ℚ) + (natOfDigits frac : ℚ) / (10 : ℚ) ^ frac.length)
  | _ => none

/-- Whitespace stripped by the JS `Number` coercion (the common cases). -/
def isJsSpace (c : Char) : Bool :=
  c = ' ' ∨ c = '\t' ∨ c = '\n' ∨ c = '\r'

/-- JS `Number(string)` on the decimal fragment of its grammar: whitespace is
trimmed, the empty string is `0`, an optional sign precedes a decimal
numeral; anything else is NaN (`none`).  (Exponent/hex/Infinity forms are not
used by this program's inputs and are mapped to NaN.) -/
def jsParseNumber (s : String) : Option ℚ :=
  let t := ((s.data.dropWhile isJsSpace).reverse.dropWhile isJsSpace).reverse
  if t = [] then some 0
  else
    match t with
    | '-' :: rest => (parseUnsignedDec rest).map (fun q => -q)
    | '+' :: rest => parseUnsignedDec rest
    | cs => parseUnsignedDec cs

/-- JS `Number(v)` coercion of a payload value; `none` is NaN. -/
def jsToNumber : JsValue → Option ℚ
  | .num q => some q
  | .str s => jsParseNumber s
  | .nullv => some 0

/-- `maskRef` (src/server.js lines 196-200): strings of length ≤ 8 collapse
to `"****"`, longer strings keep the first four (`slice(0,4)`) and last four
(`slice(-4)`) characters around the mask. -/
def maskRef (s : String) : String :=
  if s.length ≤ 8 then "****"
  else s.take 4 ++ "****" ++ String.mk (s.data.drop (s.data.length - 4))

/-- The two product metafields read by `getProductBngc` (namespace `bngc`,
keys `enabled` and `cost_amount`): each is the stored string value, or `none`
when the metafield is absent. -/
structure ProductMeta where
  enabledValue : Option String
  costValue : Option String
deriving DecidableEq, Repr

/-- Result of `getProductBngc`: `costAmount` uses the JS encoding
`none` = `null`, `some none` = NaN, `some (some q)` = the number `q`. -/
structure ProductBngc where
  enabled : Bool
  costAmount : Option (Option ℚ)
deriving DecidableEq, Repr

/-- `getProductBngc` parsing (src/server.js lines 190-192):
`enabled` is `value === "true"`; `cost` is `value ? Number(value) : null`
(a present non-empty string is coerced with `Number`, which can be NaN). -/
def getProductBngc (p : ProductMeta) : ProductBngc :=
  { enabled := p.enabledValue = some "true"
    costAmount :=
      match p.costValue with
      | some v => if v ≠ "" then some (jsParseNumber v) else none
      | none => none }

/-- `qty = Math.max(1, Number(item.quantity || 1))` (line 432); `none` is NaN
(`Math.max` with NaN is NaN). -/
def jsQty (quantity : Option JsValue) : Option ℚ :=
  match jsToNumber (jsOr quantity (.num 1)) with
  | none => none
  | some x => some (max 1 x)

/-- `unitAmount = (costAmount && costAmount > 0) ? costAmount
: Number(item.price || 0)` (line 433). -/
def unitAmountOf (costAmount : Option (Option ℚ)) (price : Option JsValue) : Option ℚ :=
  match costAmount with
  | some (some q) => if 0 < q then some q else jsToNumber (jsOr price (.num 0))
  | _ => jsToNumber (jsOr price (.num 0))

/-- Iterations of `for (let i = 0; i < qty; i++)` for a JS number bound:
NaN runs zero times, otherwise the count of naturals below `q`. -/
def loopCount : Option ℚ → Nat
  | none => 0
  | some q => (Int.ceil q).toNat

/-- A line item of the webhook order payload: `product_id`, `quantity` and
`price` fields as JS values (`none` = field absent). -/
structure LineItem where
  product_id : Option Nat
  quantity : Option JsValue
  price : Option JsValue
deriving DecidableEq, Repr

/-- The order payload: `id`, `email`, `customer?.email` (flattened: `none`
when the customer or its email is absent) and `line_items`. -/
structure Order where
  id : Nat
  email : Option String
  customerEmail : Option String
  line_items : Option (List LineItem)
deriving DecidableEq, Repr

/-- `order.email || order.customer?.email` followed by the
`if (!customerEmail)` falsy test (lines 414-418): the resolved non-empty
recipient address, or `none`. -/
def resolveEmailOf (o : Order) : Option String :=
  let customerEmail :=
    match o.email with
    | some s => if s ≠ "" then some s else o.customerEmail
    | none => o.customerEmail
  match customerEmail with
  | some s => if s = "" then none else some s
  | none => none

/-- A gift-card result from the worker: `code` and `referenceNo` fields
(`none` = absent). -/
structure GiftCard where
  code : Option String
  referenceNo : Option String
deriving DecidableEq, Repr

/-- Oracle for one request's external calls: the idempotency read, the
product metafield read per product id, the outcome of the k-th gift-card
issuance call, the SMTP send (`sendEmailSMTP` as a whole, including its
missing-credential throw), the metafields write (`setOrderMetafields`'s
GraphQL call including its `userErrors` throw), and the clock string
produced by `new Date().toISOString()`.  Errors carry the thrown message. -/
structure World where
  sentRead : Except String Bool
  productRead : Nat → Except String ProductMeta
  issue : Nat → Except String GiftCard
  emailSend : Except String Unit
  metafieldsWrite : Except String Unit
  nowISO : String

/-- Mutable state of the issuance loop (lines 421-448): number of issuance
calls made so far, their amounts in call order, `allCodes`, `maskedRefs`,
and `amountPerCodeForEmail`. -/
structure LoopState where
  nCalls : Nat := 0
  amounts : List ℚ := []
  allCodes : List String := []
  maskedRefs : List String := []
  amountPerCodeForEmail : Option ℚ := none
deriving DecidableEq, Repr

/-- The inner `for (let i = 0; i < qty; i++)` issuance loop (lines 438-447):
each iteration calls the worker, throws if the result has no truthy `code`,
and otherwise pushes the code and the masked reference.  A thrown error
carries the loop state at the throw (the failing call is already counted). -/
def issueCodes (w : World) (amount : ℚ) : Nat → LoopState → Except (String × LoopState) LoopState
  | 0, st => .ok st
  | n + 1, st =>
    let st1 : LoopState := { st with nCalls := st.nCalls + 1, amounts := st.amounts ++ [amount] }
    match w.issue st.nCalls with
    | .error msg => .error (msg, st1)
    | .ok gc =>
      match gc.code with
      | none => .error ("Giftcard failed (no code)", st1)
      | some c =>
        if c = "" then .error ("Giftcard failed (no code)", st1)
        else
          issueCodes w amount n
            { st1 with
              allCodes := st1.allCodes ++ [c]
              maskedRefs := st1.maskedRefs ++ [maskRef (jsOrStr gc.referenceNo "N/A")] }

/-- One iteration of `for (const item of order.line_items || [])`
(lines 426-448): skip items without a truthy `product_id`, read the product
metafields, skip disabled products, compute `qty` and `unitAmount`, skip
non-positive amounts, record `amountPerCodeForEmail`, then issue. -/
def handleLineItem (w : World) (item : LineItem) (st : LoopState) :
    Except (String × LoopState) LoopState :=
  match item.product_id with
  | none => .ok st
  | some pid =>
    if pid = 0 then .ok st
    else
      match w.productRead pid with
      | .error msg => .error (msg, st)
      | .ok pm =>
        let pb := getProductBngc pm
        if !pb.enabled then .ok st
        else
          let qty := jsQty item.quantity
          match unitAmountOf pb.costAmount item.price with
          | none => .ok st
          | some ua =>
            if ua ≤ 0 then .ok st
            else issueCodes w ua (loopCount qty) { st with amountPerCodeForEmail := some ua }

/-- The whole `for (const item of ...)` loop over the line items. -/
def processLineItems (w : World) : List LineItem → LoopState → Except (String × LoopState) LoopState
  | [], st => .ok st
  | item :: rest, st =>
    match handleLineItem w item st with
    | .error e => .error e
    | .ok st1 => processLineItems w rest st1

/-- Presence (truthiness) of the three required configuration strings checked
at the top of the route (lines 398-400). -/
structure Config where
  webhookSecretPresent : Bool
  shopDomainPresent : Bool
  tokenPresent : Bool
deriving DecidableEq, Repr

/-- The argument object passed to `sendEmailSMTP`/`buildEmailHtml`
(lines 456-464): recipient, subject, the full code list, and
`amountPerCodeForEmail` (`none` is rendered as `"N/A"` by the template).
`toAddr` is the source's `to` field (`to` is reserved in Lean). -/
structure EmailMsg where
  toAddr : String
  subject : String
  codes : List String
  amountPerCode : Option ℚ
deriving DecidableEq, Repr

/-- One entry of the `metafieldsSet` input built by `setOrderMetafields`
(lines 149-171); `ns` is the source's `namespace` field. -/
structure Metafield where
  ownerId : String
  ns : String
  key : String
  mtype : String
  value : String
deriving DecidableEq, Repr

/-- `orderGid` (line 125). -/
def orderGid (orderId : Nat) : String := "gid://shopify/Order/" ++ toString orderId

/-- `productGid` (line 126). -/
def productGid (productId : Nat) : String := "gid://shopify/Product/" ++ toString productId

/-- The three metafields written by `setOrderMetafields` (lines 149-171):
`sent="true"`, `reference_nos=maskedRefs.join("\n")`, `sent_at=<now ISO>`. -/
def orderMetafields (orderId : Nat) (maskedRefs : List String) (nowISO : String) :
    List Metafield :=
  [ { ownerId := orderGid orderId, ns := "bngc", key := "sent",
      mtype := "boolean", value := "true" },
    { ownerId := orderGid orderId, ns := "bngc", key := "reference_nos",
      mtype := "multi_line_text_field", value := String.intercalate "\n" maskedRefs },
    { ownerId := orderGid orderId, ns := "bngc", key := "sent_at",
      mtype := "date_time", value := nowISO } ]

/-- The metafields write attempt: owner order and the input it was given. -/
structure MetaWrite where
  orderId : Nat
  maskedRefs : List String
  fields : List Metafield
deriving DecidableEq, Repr

/-- Observable outcome of one webhook delivery: HTTP status and body text,
plus the trace of externally visible side effects — the issuance calls made
(amount per call, in order), the codes actually issued, the masked
references, the email attempt (if `sendEmailSMTP` was called), the
metafields write attempt (if `setOrderMetafields` was called), and the
message printed by `console.error` in the catch block (if any). -/
structure HResult where
  status : Nat
  body : String
  issueCalls : List ℚ := []
  codesIssued : List String := []
  maskedRefs : List String := []
  emailAttempt : Option EmailMsg := none
  metaWrite : Option MetaWrite := none
  logged : Option String := none
deriving DecidableEq, Repr

/-- The `POST /webhooks/orders_paid` handler (src/server.js lines 396-475):
config checks, signature check (`sigOk` is `verifyShopifyWebhook`'s result
on the raw body), idempotency read, recipient resolution, the issuance loop,
the email, and the metafields write; any thrown error reaches the catch
block, which logs the message and answers 500 "Error". -/
def handleOrdersPaid (cfg : Config) (sigOk : Bool) (o : Order) (w : World) : HResult :=
  if !cfg.webhookSecretPresent then { status := 500, body := "Missing SHOPIFY_WEBHOOK_SECRET" }
  else if !cfg.shopDomainPresent then { status := 500, body := "Missing SHOPIFY_SHOP_DOMAIN" }
  else if !cfg.tokenPresent then { status := 500, body := "Missing Shopify token" }
  else if !sigOk then { status := 401, body := "Invalid webhook signature" }
  else
    match w.sentRead with
    | .error msg => { status := 500, body := "Error", logged := some msg }
    | .ok true => { status := 200, body := "Already sent" }
    | .ok false =>
      match resolveEmailOf o with
      | none => { status := 200, body := "No email" }
      | some customerEmail =>
        match processLineItems w (o.line_items.getD []) {} with
        | .error (msg, st) =>
          { status := 500, body := "Error", issueCalls := st.amounts,
            codesIssued := st.allCodes, maskedRefs := st.maskedRefs, logged := some msg }
        | .ok st =>
          if st.allCodes = [] then
            { status := 200, body := "No giftcard items", issueCalls := st.amounts }
          else
            let emsg : EmailMsg :=
              { toAddr := customerEmail, subject := "Your Binance Gift Card from Shvilli",
                codes := st.allCodes, amountPerCode := st.amountPerCodeForEmail }
            match w.emailSend with
            | .error msg =>
              { status := 500, body := "Error", issueCalls := st.amounts,
                codesIssued := st.allCodes, maskedRefs := st.maskedRefs,
                emailAttempt := some emsg, logged := some msg }
            | .ok _ =>
              let mw : MetaWrite :=
                { orderId := o.id, maskedRefs := st.maskedRefs,
                  fields := orderMetafields o.id st.maskedRefs w.nowISO }
              match w.metafieldsWrite with
              | .error msg =>
                { status := 500, body := "Error", issueCalls := st.amounts,
                  codesIssued := st.allCodes, maskedRefs := st.maskedRefs,
                  emailAttempt := some emsg, metaWrite := some mw, logged := some msg }
              | .ok _ =>
                { status := 200, body := "OK", issueCalls := st.amounts,
                  codesIssued := st.allCodes, maskedRefs := st.maskedRefs,
                  emailAttempt := some emsg, metaWrite := some mw }

/-! ### Signature verification (`verifyShopifyWebhook`, lines 64-80)

`crypto.createHmac("sha256", secret).update(rawBody).digest("base64")` is
modelled by an executable HMAC-SHA-256 over byte lists (bytes are `Nat`
values below 256, words are `Nat` values reduced mod `2^32`), followed by
standard base64 encoding to a list of ASCII codes.  Strings entering
`timingSafeEqualStr` are modelled by their UTF-8 byte lists (base64 output
is ASCII, so its byte list is its code list). -/

/-- 32-bit modular addition. -/
def add32 (a b : Nat) : Nat := (a + b) % 4294967296

/-- Right rotation of a 32-bit word. -/
def rotr32 (n x : Nat) : Nat := x / 2 ^ n + x % 2 ^ n * 2 ^ (32 - n)

/-- Logical right shift of a 32-bit word. -/
def shr32 (n x : Nat) : Nat := x / 2 ^ n

/-- SHA-256 Σ0. -/
def bsig0 (x : Nat) : Nat := rotr32 2 x ^^^ rotr32 13 x ^^^ rotr32 22 x

/-- SHA-256 Σ1. -/
def bsig1 (x : Nat) : Nat := rotr32 6 x ^^^ rotr32 11 x ^^^ rotr32 25 x

/-- SHA-256 σ0. -/
def ssig0 (x : Nat) : Nat := rotr32 7 x ^^^ rotr32 18 x ^^^ shr32 3 x

/-- SHA-256 σ1. -/
def ssig1 (x : Nat) : Nat := rotr32 17 x ^^^ rotr32 19 x ^^^ shr32 10 x

/-- SHA-256 Ch. -/
def shaCh (x y z : Nat) : Nat := (x &&& y) ^^^ ((x ^^^ 4294967295) &&& z)

/-- SHA-256 Maj. -/
def shaMaj (x y z : Nat) : Nat := (x &&& y) ^^^ (x &&& z) ^^^ (y &&& z)

/-- The 64 SHA-256 round constants (FIPS 180-4, written in decimal). -/
def k256 : List Nat :=
  [1116352408, 1899447441, 3049323471, 3921009573, 961987163, 1508970993,
   2453635748, 2870763221, 3624381080, 310598401, 607225278, 1426881987,
   1925078388, 2162078206, 2614888103, 3248222580, 3835390401, 4022224774,
   264347078, 604807628, 770255983, 1249150122, 1555081692, 1996064986,
   2554220882, 2821834349, 2952996808, 3210313671, 3336571891, 3584528711,
   113926993, 338241895, 666307205, 773529912, 1294757372, 1396182291,
   1695183700, 1986661051, 2177026350, 2456956037, 2730485921, 2820302411,
   3259730800, 3345764771, 3516065817, 3600352804, 4094571909, 275423344,
   430227734, 506948616, 659060556, 883997877, 958139571, 1322822218,
   1537002063, 1747873779, 1955562222, 2024104815, 2227730452, 2361852424,
   2428436474, 2756734187, 3204031479, 3329325298]

/-- SHA-256 chaining state (eight 32-bit words). -/
structure Hash8 where
  h0 : Nat
  h1 : Nat
  h2 : Nat
  h3 : Nat
  h4 : Nat
  h5 : Nat
  h6 : Nat
  h7 : Nat

/-- SHA-256 initial hash value (FIPS 180-4, written in decimal). -/
def initHash : Hash8 :=
  ⟨1779033703, 3144134277, 1013904242, 2773480762,
   1359893119, 2600822924, 528734635, 1541459225⟩

/-- SHA-256 compression working variables. -/
structure SHAState where
  a : Nat
  b : Nat
  c : Nat
  d : Nat
  e : Nat
  f : Nat
  g : Nat
  h : Nat

/-- One SHA-256 compression round on the pair (round constant, schedule word). -/
def shaRound (s : SHAState) (kw : Nat × Nat) : SHAState :=
  let t1 := add32 s.h (add32 (bsig1 s.e) (add32 (shaCh s.e s.f s.g) (add32 kw.1 kw.2)))
  let t2 := add32 (bsig0 s.a) (shaMaj s.a s.b s.c)
  ⟨add32 t1 t2, s.a, s.b, s.c, add32 s.d t1, s.e, s.f, s.g⟩

/-- The next message-schedule word `W[t] = W[t-16] + σ0 W[t-15] + W[t-7]
+ σ1 W[t-2]` for a schedule of current length `t`. -/
def nextScheduleWord (w : List Nat) : Nat :=
  let t := w.length
  add32 (add32 (w.getD (t - 16) 0) (ssig0 (w.getD (t - 15) 0)))
        (add32 (w.getD (t - 7) 0) (ssig1 (w.getD (t - 2) 0)))

/-- Extend the 16-word schedule by the given number of words. -/
def extendSchedule : List Nat → Nat → List Nat
  | w, 0 => w
  | w, n + 1 => extendSchedule (w ++ [nextScheduleWord w]) n

/-- Big-endian 32-bit words from bytes. -/
def bytesToWords : List Nat → List Nat
  | b0 :: b1 :: b2 :: b3 :: rest =>
    (((b0 * 256 + b1) * 256 + b2) * 256 + b3) :: bytesToWords rest
  | _ => []

/-- Big-endian 4-byte encoding of a 32-bit word. -/
def wordBytes (w : Nat) : List Nat :=
  [w / 2 ^ 24 % 256, w / 2 ^ 16 % 256, w / 2 ^ 8 % 256, w % 256]

/-- Big-endian 8-byte encoding of the 64-bit message bit length. -/
def be64 (n : Nat) : List Nat :=
  [n / 2 ^ 56 % 256, n / 2 ^ 48 % 256, n / 2 ^ 40 % 256, n / 2 ^ 32 % 256,
   n / 2 ^ 24 % 256, n / 2 ^ 16 % 256, n / 2 ^ 8 % 256, n % 256]

/-- SHA-256 padding: `0x80`, zeros to 56 mod 64, then the bit length. -/
def padMessage (m : List Nat) : List Nat :=
  m ++ 128 :: List.replicate ((119 - m.length % 64) % 64) 0 ++ be64 (8 * m.length)

/-- Split a byte list into 64-byte blocks, with fuel for structural
recursion (each step strictly shortens a non-empty list, so fuel equal to
the length always suffices). -/
def chunk64Aux : Nat → List Nat → List (List Nat)
  | _, [] => []
  | 0, _ => []
  | fuel + 1, l => l.take 64 :: chunk64Aux fuel (l.drop 64)

/-- Split a (padded) byte list into 64-byte blocks. -/
def chunk64 (l : List Nat) : List (List Nat) := chunk64Aux l.length l

/-- Compress one 64-byte block into the chaining state. -/
def processBlock (hs : Hash8) (block : List Nat) : Hash8 :=
  let w := extendSchedule (bytesToWords block) 48
  let s := (k256.zip w).foldl shaRound ⟨hs.h0, hs.h1, hs.h2, hs.h3, hs.h4, hs.h5, hs.h6, hs.h7⟩
  ⟨add32 hs.h0 s.a, add32 hs.h1 s.b, add32 hs.h2 s.c, add32 hs.h3 s.d,
   add32 hs.h4 s.e, add32 hs.h5 s.f, add32 hs.h6 s.g, add32 hs.h7 s.h⟩

/-- The 32 digest bytes of a chaining state. -/
def hashBytes (h : Hash8) : List Nat :=
  wordBytes h.h0 ++ wordBytes h.h1 ++ wordBytes h.h2 ++ wordBytes h.h3 ++
  wordBytes h.h4 ++ wordBytes h.h5 ++ wordBytes h.h6 ++ wordBytes h.h7

/-- SHA-256 of a byte list. -/
def sha256 (m : List Nat) : List Nat :=
  hashBytes ((chunk64 (padMessage m)).foldl processBlock initHash)

/-- HMAC-SHA-256 (block size 64): long keys are hashed, the key is
zero-padded, and the inner/outer digests use the `0x36`/`0x5c` pads. -/
def hmacSha256 (key msg : List Nat) : List Nat :=
  let k0 := if 64 < key.length then sha256 key else key
  let kp := k0 ++ List.replicate (64 - k0.length) 0
  sha256 (kp.map (fun b => b ^^^ 0x5c) ++ sha256 (kp.map (fun b => b ^^^ 0x36) ++ msg))

/-- ASCII code of the base64 alphabet character for a 6-bit value. -/
def b64c (n : Nat) : Nat :=
  if n < 26 then 65 + n
  else if n < 52 then 71 + n
  else if n < 62 then n - 4
  else if n = 62 then 43
  else 47

/-- Standard base64 encoding of a byte list, as ASCII codes (61 = `'='`). -/
def base64Encode : List Nat → List Nat
  | [] => []
  | [b0] => [b64c (b0 / 4), b64c (b0 % 4 * 16), 61, 61]
  | [b0, b1] => [b64c (b0 / 4), b64c (b0 % 4 * 16 + b1 / 16), b64c (b1 % 16 * 4), 61]
  | b0 :: b1 :: b2 :: rest =>
    b64c (b0 / 4) :: b64c (b0 % 4 * 16 + b1 / 16) ::
    b64c (b1 % 16 * 4 + b2 / 64) :: b64c (b2 % 64) :: base64Encode rest

/-- `digest("base64")` of the HMAC: the signature string's byte list. -/
def hmacSha256Base64 (key msg : List Nat) : List Nat := base64Encode (hmacSha256 key msg)

/-- `timingSafeEqualStr` (lines 64-69): UTF-8 buffers of different lengths
compare false, otherwise `crypto.timingSafeEqual` is byte equality. -/
def timingSafeEqualStr (a b : List Nat) : Bool :=
  if a.length ≠ b.length then false else a == b

/-- `verifyShopifyWebhook` (lines 72-80): recompute the base64 HMAC-SHA-256
of the raw body under the shared secret and compare it with the
`X-Shopify-Hmac-Sha256` header (`[]`, the empty string, when missing). -/
def verifyShopifyWebhook (secret body hmacHeader : List Nat) : Bool :=
  timingSafeEqualStr (hmacSha256Base64 secret body) hmacHeader

/-! ### Specification-side helpers and concrete inputs -/

/-- `seqMap f s n = [f s, f (s+1), ..., f (s+n-1)]`: the values produced by
`n` consecutive indexed calls, in call order. -/
def seqMap (f : Nat → String) : Nat → Nat → List String
  | _, 0 => []
  | s, n + 1 => f s :: seqMap f (s + 1) n

/-- Loop-state invariant for the persistence claim: one masked reference per
issued code, and every stored reference is a `maskRef` image. -/
def MaskedInv (st : LoopState) : Prop :=
  st.maskedRefs.length = st.allCodes.length ∧ ∀ r ∈ st.maskedRefs, ∃ raw, r = maskRef raw

/-- All three required configuration strings present. -/
def cfgAll : Config := ⟨true, true, true⟩

/-- World for the idempotency run: the order is already marked sent. -/
def wAlready : World :=
  ⟨.ok true, fun _ => .ok ⟨some "true", none⟩, fun _ => .error "unreachable",
   .ok (), .ok (), "2026-02-03T04:05:06.000Z"⟩

/-- An order with a recipient and one eligible-looking line item. -/
def oPlain : Order :=
  ⟨11, some "cust@example.com", none, some [⟨some 3, some (.num 1), some (.num 5)⟩]⟩

/-- An order with no `email` field and no customer email. -/
def oNoEmail : Order :=
  ⟨12, none, none, some [⟨some 3, some (.num 1), some (.num 5)⟩]⟩

/-- World for the no-email run: not yet sent; issuance would succeed. -/
def wFresh : World :=
  ⟨.ok false, fun _ => .ok ⟨some "true", none⟩, fun _ => .ok ⟨some "CODE", some "REFNO9876543"⟩,
   .ok (), .ok (), "2026-02-03T04:05:06.000Z"⟩

/-- World for the partial-issuance run: the first gift-card call succeeds,
every later one fails. -/
def wPartial : World :=
  ⟨.ok false, fun _ => .ok ⟨some "true", none⟩,
   fun k => if k = 0 then .ok ⟨some "CODEALPHA", some "REFNO9876543"⟩ else .error "worker down",
   .ok (), .ok (), "2026-02-03T04:05:06.000Z"⟩

/-- An order holding one eligible item of quantity 2 at price 10. -/
def oQty2 : Order :=
  ⟨7, some "c@example.com", none, some [⟨some 1, some (.num 2), some (.num 10)⟩]⟩

/-- World for the failed-notification run: issuance succeeds, SMTP fails. -/
def wMailFail : World :=
  ⟨.ok false, fun _ => .ok ⟨some "true", none⟩,
   fun _ => .ok ⟨some "SECRETCODE1234", some "REFNO9876543"⟩,
   .error "x", .ok (), "2026-02-03T04:05:06.000Z"⟩

/-- An order holding one eligible item of quantity 1 at price 10. -/
def oQty1 : Order :=
  ⟨8, some "c@example.com", none, some [⟨some 1, some (.num 1), some (.num 10)⟩]⟩

/-- World for the quantity-3 issuance run: everything succeeds. -/
def wIssue3 : World :=
  ⟨.ok false, fun _ => .ok ⟨some "true", none⟩, fun _ => .ok ⟨some "CODE", some "REFERENCE99"⟩,
   .ok (), .ok (), "2026-02-03T04:05:06.000Z"⟩

/-- An order holding one eligible item of quantity 3 at price 10. -/
def oQty3 : Order :=
  ⟨21, some "c@example.com", none, some [⟨some 2, some (.num 3), some (.num 10)⟩]⟩

/-- World for the rejected-persistence run: issuance and email succeed, the
metafields write is rejected by the platform. -/
def wMetaFail : World :=
  ⟨.ok false, fun _ => .ok ⟨some "true", none⟩, fun _ => .ok ⟨some "CODE", some "REFNO9876543"⟩,
   .ok (), .error "rejected", "2026-02-03T04:05:06.000Z"⟩

/-- An order whose only line item has the non-numeric quantity `"abc"`. -/
def oQtyNaN : Order :=
  ⟨31, some "c@example.com", none, some [⟨some 1, some (.str "abc"), some (.num 10)⟩]⟩

/-- Bytes of the secret `"sec"`. -/
def sec6 : List Nat := [115, 101, 99]

/-- Bytes of the body `"hi"`. -/
def body6 : List Nat := [104, 105]

/-- `body6` with one bit of its first byte flipped (`104` to `105`). -/
def body6flip : List Nat := [105, 105]

/-- Bytes of the different secret `"sed"`. -/
def sec6b : List Nat := [115, 101, 100]

/-! ### Loop lemmas -/

/-- When every worker call succeeds with a non-empty code, the inner loop
makes exactly the requested number of calls, all at the same amount, and
appends the codes and masked references in call order. -/
theorem issueCodes_ok (w : World) (a : ℚ) (cf rf : Nat → String)
    (hI : ∀ k, w.issue k = .ok ⟨some (cf k), some (rf k)⟩)
    (hcf : ∀ k, cf k ≠ "") :
    ∀ (n : Nat) (st : LoopState),
      issueCodes w a n st = .ok
        { nCalls := st.nCalls + n
          amounts := st.amounts ++ List.replicate n a
          allCodes := st.allCodes ++ seqMap cf st.nCalls n
          maskedRefs := st.maskedRefs ++
            seqMap (fun k => maskRef (jsOrStr (some (rf k)) "N/A")) st.nCalls n
          amountPerCodeForEmail := st.amountPerCodeForEmail } := by
  intro n
  induction n with
  | zero => intro st; simp [issueCodes, seqMap]
  | succ m ih =>
    intro st
    simp only [issueCodes, hI st.nCalls]
    rw [if_neg (hcf st.nCalls)]
    rw [ih]
    refine congrArg Except.ok ?_
    simp [seqMap, List.replicate_succ, List.append_assoc]
    omega

/-- A line item with a truthy product id, an enabled product without a cost
override, and a positive price issues `loopCount (jsQty quantity)` codes at
the price amount. -/
theorem handleLineItem_eligible (w : World) (pid : Nat) (hpid : pid ≠ 0)
    (hpm : w.productRead pid = .ok ⟨some "true", none⟩)
    (a : ℚ) (ha : 0 < a) (qv : Option JsValue) (st : LoopState) :
    handleLineItem w ⟨some pid, qv, some (.num a)⟩ st =
      issueCodes w a (loopCount (jsQty qv)) { st with amountPerCodeForEmail := some a } := by
  have ha0 : a ≠ 0 := ha.ne'
  have ha1 : ¬a ≤ 0 := not_le.mpr ha
  simp [handleLineItem, hpm, hpid, getProductBngc, unitAmountOf, jsOr, jsTruthy,
    jsToNumber, ha0, ha1]

/-- A singleton item list runs exactly its one item. -/
theorem processLineItems_single (w : World) (item : LineItem) (st : LoopState) :
    processLineItems w [item] st = handleLineItem w item st := by
  cases h : handleLineItem w item st <;> simp [processLineItems, h]

/-- A missing quantity field coerces to 1. -/
theorem jsQty_none : jsQty none = some 1 := by
  simp [jsQty, jsOr, jsToNumber]

/-- A numeric quantity `n ≥ 1` is kept as is by `Math.max(1, ...)`. -/
theorem jsQty_natCast (n : Nat) (hn : 1 ≤ n) : jsQty (some (.num (n : ℚ))) = some (n : ℚ) := by
  have h0 : ((n : ℚ)) ≠ 0 := Nat.cast_ne_zero.mpr (by omega)
  simp [jsQty, jsOr, jsTruthy, jsToNumber, h0]
  exact_mod_cast hn

/-- A numeric quantity `q ≤ 1` (zero, negative or fractional) becomes 1. -/
theorem jsQty_le_one (q : ℚ) (hq : q ≤ 1) : jsQty (some (.num q)) = some 1 := by
  by_cases h0 : q = 0
  · subst h0; simp [jsQty, jsOr, jsTruthy, jsToNumber]
  · simp [jsQty, jsOr, jsTruthy, jsToNumber, h0, max_eq_left hq]

/-- A non-empty quantity string that `Number` cannot parse gives NaN. -/
theorem jsQty_nanStr (s : String) (hs : s ≠ "") (hp : jsParseNumber s = none) :
    jsQty (some (.str s)) = none := by
  simp [jsQty, jsOr, jsTruthy, jsToNumber, hs, hp]

/-- The `for` loop over a natural bound runs that many times. -/
theorem loopCount_natCast (n : Nat) : loopCount (some (n : ℚ)) = n := by
  simp [loopCount]

/-- The `for` loop with bound 1 runs once. -/
theorem loopCount_one : loopCount (some 1) = 1 := by
  simp [loopCount]

/-- The `for` loop with a NaN bound runs zero times. -/
theorem loopCount_nan : loopCount none = 0 := rfl

/-! ### C1, C4: early-exit outcomes -/

/-- C1: when the idempotency read finds `sent=true`, the handler answers
200 "Already sent" and performs no issuance call, no email and no
metafields write (the result is the empty-trace record). -/
theorem c1_already_sent (cfg : Config) (sig : Bool) (o : Order) (w : World)
    (h1 : cfg.webhookSecretPresent = true) (h2 : cfg.shopDomainPresent = true)
    (h3 : cfg.tokenPresent = true) (hsig : sig = true)
    (hsent : w.sentRead = .ok true) :
    handleOrdersPaid cfg sig o w = { status := 200, body := "Already sent" } := by
  subst hsig
  simp [handleOrdersPaid, h1, h2, h3, hsent]

/-- C1 witness: a concrete already-sent run. -/
theorem c1_already_sent_witness :
    handleOrdersPaid cfgAll true oPlain wAlready = { status := 200, body := "Already sent" } :=
  c1_already_sent cfgAll true oPlain wAlready rfl rfl rfl rfl rfl

/-- C4: when no recipient email resolves (neither `order.email` nor
`order.customer?.email` is a non-empty string) and the order is not yet
sent, the handler answers 200 "No email" with no issuance call, no email
and no metafields write (the empty-trace record): recipient resolution
precedes all issuance. -/
theorem c4_no_email (cfg : Config) (sig : Bool) (o : Order) (w : World)
    (h1 : cfg.webhookSecretPresent = true) (h2 : cfg.shopDomainPresent = true)
    (h3 : cfg.tokenPresent = true) (hsig : sig = true)
    (hsent : w.sentRead = .ok false) (hres : resolveEmailOf o = none) :
    handleOrdersPaid cfg sig o w = { status := 200, body := "No email" } := by
  subst hsig
  simp [handleOrdersPaid, h1, h2, h3, hsent, hres]

/-- C4 witness: a concrete run with no recipient address. -/
theorem c4_no_email_witness :
    handleOrdersPaid cfgAll true oNoEmail wFresh = { status := 200, body := "No email" } :=
  c4_no_email cfgAll true oNoEmail wFresh rfl rfl rfl rfl rfl rfl

/-! ### C7: the reference mask -/

/-- C7: `maskRef` collapses strings of length at most 8 to `"****"`,
otherwise keeps the first four and last four characters around the mask;
the four concrete examples of the specification hold.  (As a pure Lean
function it is deterministic by construction.) -/
theorem c7_maskRef (s : String) :
    (s.length ≤ 8 → maskRef s = "****") ∧
    (8 < s.length →
      maskRef s = s.take 4 ++ "****" ++ String.mk (s.data.drop (s.data.length - 4))) ∧
    maskRef "AB" = "****" ∧
    maskRef "ABCDEFGH" = "****" ∧
    maskRef "ABCDEFGHI" = "ABCD****FGHI" ∧
    maskRef "1234567890" = "1234****7890" := by
  refine ⟨fun h => ?_, fun h => ?_, by decide, by decide, by decide, by decide⟩
  · simp [maskRef, h]
  · simp [maskRef, Nat.not_le.mpr h]

/-- C7 witness: both branches of the characterization at concrete inputs. -/
theorem c7_maskRef_witness :
    maskRef "AB" = "****" ∧
    maskRef "ABCDEFGHI" =
      "ABCDEFGHI".take 4 ++ "****" ++
        String.mk ("ABCDEFGHI".data.drop ("ABCDEFGHI".data.length - 4)) :=
  ⟨(c7_maskRef "AB").1 (by decide), (c7_maskRef "ABCDEFGHI").2.1 (by decide)⟩

/-! ### C9: product eligibility parsing -/

/-- C9 counterexample: for a present but unparseable `cost_amount` value
(`"abc"`), `getProductBngc` yields `costAmount = NaN` (`some none`), which
is not the `null` (`none`) the specification promises for unparseable
values. -/
theorem c9_counterexample :
    getProductBngc ⟨none, some "abc"⟩ = ⟨false, some none⟩ ∧
    some (none : Option ℚ) ≠ (none : Option (Option ℚ)) := by
  constructor
  · decide
  · decide

/-- C9 (amended): `enabled` is true exactly when the stored value is the
string `"true"`; a missing or empty (falsy) `cost_amount` value yields
`costAmount = null`; a present non-empty value yields `Number(value)`,
which is NaN — not `null` — when the value does not parse. -/
theorem c9_eligibility_parsing (pm : ProductMeta) :
    ((getProductBngc pm).enabled = true ↔ pm.enabledValue = some "true") ∧
    (pm.costValue = none → (getProductBngc pm).costAmount = none) ∧
    (∀ s, pm.costValue = some s → s = "" → (getProductBngc pm).costAmount = none) ∧
    (∀ s, pm.costValue = some s → s ≠ "" →
      (getProductBngc pm).costAmount = some (jsParseNumber s)) := by
  refine ⟨?_, ?_, ?_, ?_⟩
  · simp [getProductBngc]
  · intro h; simp [getProductBngc, h]
  · intro s h hs; subst hs; simp [getProductBngc, h]
  · intro s h hs; simp [getProductBngc, h, hs]

/-- C9 witness: the enabled flag and the NaN case at a concrete input. -/
theorem c9_eligibility_parsing_witness :
    (getProductBngc ⟨some "true", some "abc"⟩).enabled = true ∧
    (getProductBngc ⟨some "true", some "abc"⟩).costAmount = some (jsParseNumber "abc") :=
  ⟨((c9_eligibility_parsing ⟨some "true", some "abc"⟩).1).mpr rfl,
   (c9_eligibility_parsing ⟨some "true", some "abc"⟩).2.2.2 "abc" rfl (by decide)⟩

/-! ### C5: one issuance call per unit of quantity -/

/-- `seqMap` of at least one call is non-empty. -/
theorem seqMap_ne_nil (f : Nat → String) (s n : Nat) (hn : 1 ≤ n) : seqMap f s n ≠ [] := by
  obtain ⟨m, rfl⟩ : ∃ m, n = m + 1 := ⟨n - 1, by omega⟩
  simp [seqMap]

/-- C5: for an order whose single eligible line item has numeric quantity
`n ≥ 1` and resolved unit amount `a > 0` (price, no cost override), the
handler makes exactly `n` sequential issuance calls, each for amount `a`,
and the notification carries exactly the `n` issued codes in issuance
order; concretely, quantity 3 at amount 10 gives 3 calls of amount 10. -/
theorem c5_quantity_issuance (n : Nat) (hn : 1 ≤ n) (a : ℚ) (ha : 0 < a)
    (cf rf : Nat → String) (hcf : ∀ k, cf k ≠ "")
    (w : World) (hsent : w.sentRead = .ok false)
    (hprod : ∀ pid, w.productRead pid = .ok ⟨some "true", none⟩)
    (hissue : ∀ k, w.issue k = .ok ⟨some (cf k), some (rf k)⟩)
    (hemail : w.emailSend = .ok ()) (hmeta : w.metafieldsWrite = .ok ())
    (oid pid : Nat) (hpid : pid ≠ 0) (em : String) (hem : em ≠ "") :
    (handleOrdersPaid cfgAll true
        ⟨oid, some em, none, some [⟨some pid, some (.num (n : ℚ)), some (.num a)⟩]⟩ w).status
        = 200 ∧
    (handleOrdersPaid cfgAll true
        ⟨oid, some em, none, some [⟨some pid, some (.num (n : ℚ)), some (.num a)⟩]⟩ w).issueCalls
        = List.replicate n a ∧
    (handleOrdersPaid cfgAll true
        ⟨oid, some em, none, some [⟨some pid, some (.num (n : ℚ)), some (.num a)⟩]⟩ w).codesIssued
        = seqMap cf 0 n ∧
    (handleOrdersPaid cfgAll true
        ⟨oid, some em, none, some [⟨some pid, some (.num (n : ℚ)), some (.num a)⟩]⟩ w).emailAttempt
        = some ⟨em, "Your Binance Gift Card from Shvilli", seqMap cf 0 n, some a⟩ := by
  have hHL := handleLineItem_eligible w pid hpid (hprod pid) a ha
    (some (.num (n : ℚ))) {}
  rw [jsQty_natCast n hn, loopCount_natCast,
    issueCodes_ok w a cf rf hissue hcf] at hHL
  simp only [LoopState.nCalls] at hHL
  have hloop :
      processLineItems w [⟨some pid, some (.num (n : ℚ)), some (.num a)⟩] {} =
        .ok { nCalls := n, amounts := List.replicate n a, allCodes := seqMap cf 0 n,
              maskedRefs := seqMap (fun k => maskRef (jsOrStr (some (rf k)) "N/A")) 0 n,
              amountPerCodeForEmail := some a } := by
    rw [processLineItems_single, hHL]
    simp
  have hne := seqMap_ne_nil cf 0 n hn
  simp [handleOrdersPaid, cfgAll, hsent, resolveEmailOf, hem, hloop, hne, hemail, hmeta]

/-- C5 witness: quantity 3 at amount 10 — three calls of amount 10, three
codes in the notification. -/
theorem c5_quantity_issuance_witness :
    (handleOrdersPaid cfgAll true oQty3 wIssue3).status = 200 ∧
    (handleOrdersPaid cfgAll true oQty3 wIssue3).issueCalls = List.replicate 3 10 ∧
    (handleOrdersPaid cfgAll true oQty3 wIssue3).codesIssued =
      seqMap (fun _ => "CODE") 0 3 ∧
    (handleOrdersPaid cfgAll true oQty3 wIssue3).emailAttempt =
      some ⟨"c@example.com", "Your Binance Gift Card from Shvilli",
            seqMap (fun _ => "CODE") 0 3, some 10⟩ :=
  c5_quantity_issuance 3 (by decide) 10 (by decide)
    (fun _ => "CODE") (fun _ => "REFERENCE99") (fun _ => (by decide : ("CODE" : String) ≠ ""))
    wIssue3 rfl (fun _ => rfl) (fun _ => rfl) rfl rfl
    21 2 (by decide) "c@example.com" (by decide)

/-! ### C10: quantity edge cases -/

/-- C10 counterexample: an otherwise-eligible line item whose quantity field
is the non-numeric string `"abc"` issues zero codes — `Number("abc")` is
NaN, `Math.max(1, NaN)` is NaN, and the `for` loop never runs — so the
handler ends with "No giftcard items" instead of the one issuance call the
claim demands. -/
theorem c10_counterexample :
    handleOrdersPaid cfgAll true oQtyNaN wIssue3 =
      { status := 200, body := "No giftcard items" } ∧
    (handleOrdersPaid cfgAll true oQtyNaN wIssue3).issueCalls = [] := by
  constructor
  · decide
  · decide

/-- C10 (amended): for an otherwise-eligible line item, a missing quantity
field or any numeric quantity `q ≤ 1` (zero, negative, fractional) still
yields exactly one issuance call of the item amount — the count is
`Math.max(1, Number(quantity || 1))` — but a non-empty, non-numeric quantity
string coerces to NaN and yields zero issuance calls for that item. -/
theorem c10_quantity_edge_cases (a : ℚ) (ha : 0 < a)
    (cf rf : Nat → String) (hcf : ∀ k, cf k ≠ "")
    (w : World) (hsent : w.sentRead = .ok false)
    (hprod : ∀ pid, w.productRead pid = .ok ⟨some "true", none⟩)
    (hissue : ∀ k, w.issue k = .ok ⟨some (cf k), some (rf k)⟩)
    (hemail : w.emailSend = .ok ()) (hmeta : w.metafieldsWrite = .ok ())
    (oid pid : Nat) (hpid : pid ≠ 0) (em : String) (hem : em ≠ "") :
    (∀ qv : Option JsValue, jsQty qv = some 1 →
      (handleOrdersPaid cfgAll true
          ⟨oid, some em, none, some [⟨some pid, qv, some (.num a)⟩]⟩ w).issueCalls = [a]) ∧
    (jsQty none = some 1) ∧
    (∀ q : ℚ, q ≤ 1 → jsQty (some (.num q)) = some 1) ∧
    (∀ s, s ≠ "" → jsParseNumber s = none →
      (handleOrdersPaid cfgAll true
          ⟨oid, some em, none, some [⟨some pid, some (.str s), some (.num a)⟩]⟩ w).issueCalls = []
      ∧ (handleOrdersPaid cfgAll true
          ⟨oid, some em, none, some [⟨some pid, some (.str s), some (.num a)⟩]⟩ w).body
          = "No giftcard items") := by
  refine ⟨?_, jsQty_none, fun q hq => jsQty_le_one q hq, ?_⟩
  · intro qv hqv
    have hHL := handleLineItem_eligible w pid hpid (hprod pid) a ha qv {}
    rw [hqv, loopCount_one, issueCodes_ok w a cf rf hissue hcf] at hHL
    have hloop :
        processLineItems w [⟨some pid, qv, some (.num a)⟩] {} =
          .ok { nCalls := 1, amounts := [a], allCodes := seqMap cf 0 1,
                maskedRefs := seqMap (fun k => maskRef (jsOrStr (some (rf k)) "N/A")) 0 1,
                amountPerCodeForEmail := some a } := by
      rw [processLineItems_single, hHL]
      simp [seqMap]
    have hne := seqMap_ne_nil cf 0 1 (by omega)
    simp [handleOrdersPaid, cfgAll, hsent, resolveEmailOf, hem, hloop, hne, hemail, hmeta, seqMap]
  · intro s hs hp
    have hHL := handleLineItem_eligible w pid hpid (hprod pid) a ha (some (.str s)) {}
    rw [jsQty_nanStr s hs hp] at hHL
    have hloop :
        processLineItems w [⟨some pid, some (.str s), some (.num a)⟩] {} =
          .ok { nCalls := 0, amounts := [], allCodes := [], maskedRefs := [],
                amountPerCodeForEmail := some a } := by
      rw [processLineItems_single, hHL]
      simp [loopCount, issueCodes]
    constructor
    · simp [handleOrdersPaid, cfgAll, hsent, resolveEmailOf, hem, hloop]
    · simp [handleOrdersPaid, cfgAll, hsent, resolveEmailOf, hem, hloop]

/-- C10 witness: a missing quantity still issues one code; quantity 0 and a
negative quantity still issue one code; the non-numeric quantity string
`"abc"` issues none. -/
theorem c10_quantity_edge_cases_witness :
    (handleOrdersPaid cfgAll true
        ⟨41, some "c@example.com", none, some [⟨some 2, none, some (.num 10)⟩]⟩
        wIssue3).issueCalls = [10] ∧
    (handleOrdersPaid cfgAll true
        ⟨41, some "c@example.com", none, some [⟨some 2, some (.num 0), some (.num 10)⟩]⟩
        wIssue3).issueCalls = [10] ∧
    (handleOrdersPaid cfgAll true
        ⟨41, some "c@example.com", none, some [⟨some 2, some (.num (-5)), some (.num 10)⟩]⟩
        wIssue3).issueCalls = [10] ∧
    (handleOrdersPaid cfgAll true
        ⟨41, some "c@example.com", none, some [⟨some 2, some (.str "abc"), some (.num 10)⟩]⟩
        wIssue3).issueCalls = [] := by
  have h := c10_quantity_edge_cases 10 (by decide)
    (fun _ => "CODE") (fun _ => "REFERENCE99") (fun _ => (by decide : ("CODE" : String) ≠ ""))
    wIssue3 rfl (fun _ => rfl) (fun _ => rfl) rfl rfl
    41 2 (by decide) "c@example.com" (by decide)
  refine ⟨h.1 none h.2.1, h.1 (some (.num 0)) (h.2.2.1 0 (by decide)),
    h.1 (some (.num (-5))) (h.2.2.1 (-5) (by decide)),
    (h.2.2.2 "abc" (by decide) (by decide)).1⟩

/-! ### C2: issuance failure after partial issuance -/

/-- C2 counterexample: with the first worker call succeeding (code
`"CODEALPHA"`) and the second failing, the handler has issued one code yet
makes no notification attempt at all — the already-issued code is not
carried forward to the customer notification; the request just fails with
500. -/
theorem c2_counterexample :
    (handleOrdersPaid cfgAll true oQty2 wPartial).codesIssued = ["CODEALPHA"] ∧
    (handleOrdersPaid cfgAll true oQty2 wPartial).emailAttempt = none ∧
    (handleOrdersPaid cfgAll true oQty2 wPartial).status = 500 := by
  refine ⟨by decide, by decide, by decide⟩

/-- C2 (amended): when any issuance call fails, the thrown error reaches the
catch block directly: the handler answers 500 "Error", attempts no customer
notification and no metafields write, and logs only the error message — the
codes already issued (visible in the trace) are discarded rather than
carried to the notification step. -/
theorem c2_issuance_failure (cfg : Config) (sig : Bool) (o : Order) (w : World)
    (m : String) (st : LoopState)
    (h1 : cfg.webhookSecretPresent = true) (h2 : cfg.shopDomainPresent = true)
    (h3 : cfg.tokenPresent = true) (hsig : sig = true)
    (hsent : w.sentRead = .ok false) (em : String) (hres : resolveEmailOf o = some em)
    (hloop : processLineItems w (o.line_items.getD []) {} = .error (m, st)) :
    handleOrdersPaid cfg sig o w =
      { status := 500, body := "Error", issueCalls := st.amounts,
        codesIssued := st.allCodes, maskedRefs := st.maskedRefs, logged := some m } := by
  subst hsig
  simp [handleOrdersPaid, h1, h2, h3, hsent, hres, hloop]

/-- C2 witness: the concrete partial-issuance run, fully evaluated. -/
theorem c2_issuance_failure_witness :
    handleOrdersPaid cfgAll true oQty2 wPartial =
      { status := 500, body := "Error", issueCalls := [10, 10],
        codesIssued := ["CODEALPHA"], maskedRefs := ["REFN****6543"],
        logged := some "worker down" } :=
  c2_issuance_failure cfgAll true oQty2 wPartial "worker down"
    ⟨2, [10, 10], ["CODEALPHA"], ["REFN****6543"], some 10⟩
    rfl rfl rfl rfl rfl "c@example.com" rfl rfl

/-! ### C3: notification failure after issuance -/

/-- C3 counterexample: when the SMTP send fails after the code
`"SECRETCODE1234"` was issued, the catch block logs only the error message
(`"x"`); the issued code list appears nowhere in the logged output — in
particular the code is not even a substring of what is logged. -/
theorem c3_counterexample :
    (handleOrdersPaid cfgAll true oQty1 wMailFail).codesIssued = ["SECRETCODE1234"] ∧
    (handleOrdersPaid cfgAll true oQty1 wMailFail).logged = some "x" ∧
    ¬ List.IsInfix "SECRETCODE1234".data "x".data := by
  refine ⟨by decide, by decide, fun h => absurd h.length_le (by decide)⟩

/-- C3 (amended): when the notification send fails after codes were issued,
the handler answers 500 "Error" and the catch block logs only the failure's
error message — the full code list is carried in the attempted email payload
but is not part of the logged output, and no metafields write happens. -/
theorem c3_notification_failure (cfg : Config) (sig : Bool) (o : Order) (w : World)
    (st : LoopState) (m : String)
    (h1 : cfg.webhookSecretPresent = true) (h2 : cfg.shopDomainPresent = true)
    (h3 : cfg.tokenPresent = true) (hsig : sig = true)
    (hsent : w.sentRead = .ok false) (em : String) (hres : resolveEmailOf o = some em)
    (hloop : processLineItems w (o.line_items.getD []) {} = .ok st)
    (hcodes : st.allCodes ≠ []) (hemail : w.emailSend = .error m) :
    handleOrdersPaid cfg sig o w =
      { status := 500, body := "Error", issueCalls := st.amounts,
        codesIssued := st.allCodes, maskedRefs := st.maskedRefs,
        emailAttempt := some ⟨em, "Your Binance Gift Card from Shvilli",
          st.allCodes, st.amountPerCodeForEmail⟩,
        logged := some m } := by
  subst hsig
  simp [handleOrdersPaid, h1, h2, h3, hsent, hres, hloop, hcodes, hemail]

/-- C3 witness: the concrete failed-notification run, fully evaluated. -/
theorem c3_notification_failure_witness :
    handleOrdersPaid cfgAll true oQty1 wMailFail =
      { status := 500, body := "Error", issueCalls := [10],
        codesIssued := ["SECRETCODE1234"], maskedRefs := ["REFN****6543"],
        emailAttempt := some ⟨"c@example.com", "Your Binance Gift Card from Shvilli",
          ["SECRETCODE1234"], some 10⟩,
        logged := some "x" } :=
  c3_notification_failure cfgAll true oQty1 wMailFail
    ⟨1, [10], ["SECRETCODE1234"], ["REFN****6543"], some 10⟩ "x"
    rfl rfl rfl rfl rfl "c@example.com" rfl rfl (by decide) rfl

/-! ### C8: the persistence write -/

/-- The inner issuance loop preserves the masked-reference invariant. -/
theorem issueCodes_maskedInv (w : World) (a : ℚ) :
    ∀ (n : Nat) (st st' : LoopState), MaskedInv st →
      issueCodes w a n st = .ok st' → MaskedInv st' := by
  intro n
  induction n with
  | zero =>
    intro st st' hInv h
    simp [issueCodes] at h
    rwa [← h]
  | succ m ih =>
    intro st st' hInv h
    simp only [issueCodes] at h
    split at h
    · simp at h
    · split at h
      · simp at h
      · split at h
        · simp at h
        · refine ih _ st' ⟨?_, ?_⟩ h
          · simp [hInv.1]
          · intro r hr
            simp at hr
            rcases hr with hr | hr
            · exact hInv.2 r hr
            · exact ⟨_, hr⟩

/-- A line item either leaves the state unchanged, throws with the unchanged
state, or runs the issuance loop on the state with `amountPerCodeForEmail`
updated. -/
theorem handleLineItem_cases (w : World) (item : LineItem) (st : LoopState) :
    handleLineItem w item st = .ok st ∨
    (∃ msg, handleLineItem w item st = .error (msg, st)) ∨
    (∃ ua n, handleLineItem w item st =
      issueCodes w ua n { st with amountPerCodeForEmail := some ua }) := by
  rcases hp : item.product_id with _ | pid
  · left; simp [handleLineItem, hp]
  · by_cases hz : pid = 0
    · left; simp [handleLineItem, hp, hz]
    · rcases hr : w.productRead pid with msg | pm
      · right; left; exact ⟨msg, by simp [handleLineItem, hp, hz, hr]⟩
      · by_cases he : (getProductBngc pm).enabled
        · rcases hu : unitAmountOf (getProductBngc pm).costAmount item.price with _ | ua
          · left; simp [handleLineItem, hp, hz, hr, he, hu]
          · by_cases hua : ua ≤ 0
            · left; simp [handleLineItem, hp, hz, hr, he, hu, hua]
            · right; right
              exact ⟨ua, loopCount (jsQty item.quantity),
                by simp [handleLineItem, hp, hz, hr, he, hu, hua]⟩
        · left; simp [handleLineItem, hp, hz, hr, he]

/-- One line item preserves the masked-reference invariant. -/
theorem handleLineItem_maskedInv (w : World) (item : LineItem) (st st' : LoopState)
    (hInv : MaskedInv st) (h : handleLineItem w item st = .ok st') : MaskedInv st' := by
  rcases handleLineItem_cases w item st with hc | ⟨msg, hc⟩ | ⟨ua, n, hc⟩
  · rw [hc] at h
    injection h with h
    rwa [← h]
  · rw [hc] at h
    exact absurd h (by simp)
  · rw [hc] at h
    exact issueCodes_maskedInv w ua n
      { st with amountPerCodeForEmail := some ua } st' ⟨hInv.1, hInv.2⟩ h

/-- The whole line-item loop preserves the masked-reference invariant. -/
theorem processLineItems_maskedInv (w : World) :
    ∀ (items : List LineItem) (st st' : LoopState), MaskedInv st →
      processLineItems w items st = .ok st' → MaskedInv st' := by
  intro items
  induction items with
  | nil =>
    intro st st' hInv h
    simp [processLineItems] at h
    rwa [← h]
  | cons item rest ih =>
    intro st st' hInv h
    simp only [processLineItems] at h
    rcases hh : handleLineItem w item st with e | st1
    · rw [hh] at h; simp at h
    · rw [hh] at h
      simp at h
      exact ih st1 st' (handleLineItem_maskedInv w item st st1 hInv hh) h

/-- C8: whenever a run reaches the persistence step, `setOrderMetafields` is
called with exactly the order's masked references, and builds exactly the
three metafields `sent="true"`, `reference_nos` = newline-join of the masked
references, and `sent_at` = the clock's ISO string; the masked-reference
list is parallel to the issued-code list (one per code, in issuance order)
and every entry is a `maskRef` image — no raw code is passed; and when the
platform rejects the write, the error propagates: the handler answers 500
and logs the platform's message. -/
theorem c8_persistence (cfg : Config) (sig : Bool) (o : Order) (w : World) (st : LoopState)
    (h1 : cfg.webhookSecretPresent = true) (h2 : cfg.shopDomainPresent = true)
    (h3 : cfg.tokenPresent = true) (hsig : sig = true)
    (hsent : w.sentRead = .ok false) (em : String) (hres : resolveEmailOf o = some em)
    (hloop : processLineItems w (o.line_items.getD []) {} = .ok st)
    (hcodes : st.allCodes ≠ []) (hemail : w.emailSend = .ok ()) :
    (handleOrdersPaid cfg sig o w).metaWrite =
      some ⟨o.id, st.maskedRefs, orderMetafields o.id st.maskedRefs w.nowISO⟩ ∧
    orderMetafields o.id st.maskedRefs w.nowISO =
      [⟨orderGid o.id, "bngc", "sent", "boolean", "true"⟩,
       ⟨orderGid o.id, "bngc", "reference_nos", "multi_line_text_field",
        String.intercalate "\n" st.maskedRefs⟩,
       ⟨orderGid o.id, "bngc", "sent_at", "date_time", w.nowISO⟩] ∧
    st.maskedRefs.length = st.allCodes.length ∧
    (∀ r ∈ st.maskedRefs, ∃ raw, r = maskRef raw) ∧
    (handleOrdersPaid cfg sig o w).status =
      (match w.metafieldsWrite with | .ok _ => 200 | .error _ => 500) ∧
    (handleOrdersPaid cfg sig o w).logged =
      (match w.metafieldsWrite with | .ok _ => none | .error m => some m) := by
  subst hsig
  have hInv : MaskedInv st :=
    processLineItems_maskedInv w _ {} st ⟨rfl, by simp⟩ hloop
  rcases hw : w.metafieldsWrite with m | u <;>
    refine ⟨?_, rfl, hInv.1, hInv.2, ?_, ?_⟩ <;>
      simp [handleOrdersPaid, h1, h2, h3, hsent, hres, hloop, hcodes, hemail, hw]

/-- C8 witness: the rejected-persistence run — the write is attempted with
the masked reference only and the rejection propagates as a 500. -/
theorem c8_persistence_witness :
    (handleOrdersPaid cfgAll true oQty1 wMetaFail).metaWrite =
      some ⟨8, ["REFN****6543"],
        orderMetafields 8 ["REFN****6543"] "2026-02-03T04:05:06.000Z"⟩ ∧
    (handleOrdersPaid cfgAll true oQty1 wMetaFail).status = 500 ∧
    (handleOrdersPaid cfgAll true oQty1 wMetaFail).logged = some "rejected" := by
  have h := c8_persistence cfgAll true oQty1 wMetaFail
    ⟨1, [10], ["CODE"], ["REFN****6543"], some 10⟩
    rfl rfl rfl rfl rfl "c@example.com" rfl rfl (by decide) rfl
  exact ⟨h.1, h.2.2.2.2.1, h.2.2.2.2.2⟩

/-! ### C6: webhook signature verification -/

/-- The base64 encoding of a SHA-256 digest (32 bytes) has 44 characters. -/
theorem sha256_base64_length (m : List Nat) : (base64Encode (sha256 m)).length = 44 := by
  simp [sha256, hashBytes, wordBytes, base64Encode]

/-- The base64 HMAC-SHA-256 signature string has 44 characters. -/
theorem hmacSha256Base64_length (k m : List Nat) : (hmacSha256Base64 k m).length = 44 := by
  simp only [hmacSha256Base64, hmacSha256]
  exact sha256_base64_length _

set_option maxRecDepth 100000 in
/-- C6: verifying a body against the base64 HMAC-SHA-256 of that body under
the same secret succeeds for every body and secret; verification returns
false — it is a total function, it never throws — for every header other
than the genuine signature (any length or content mismatch), in particular
for the missing header (the empty string); and concretely, flipping one bit
of the body, or verifying under a different secret, makes the recomputed
digest differ so verification returns false. -/
theorem c6_webhook_signature :
    (∀ secret body, verifyShopifyWebhook secret body (hmacSha256Base64 secret body) = true) ∧
    (∀ secret body header, header ≠ hmacSha256Base64 secret body →
      verifyShopifyWebhook secret body header = false) ∧
    (∀ secret body, verifyShopifyWebhook secret body [] = false) ∧
    verifyShopifyWebhook sec6 body6flip (hmacSha256Base64 sec6 body6) = false ∧
    verifyShopifyWebhook sec6b body6 (hmacSha256Base64 sec6 body6) = false := by
  refine ⟨?_, ?_, ?_, by decide, by decide⟩
  · intro s b
    simp [verifyShopifyWebhook, timingSafeEqualStr]
  · intro s b header hne
    by_cases hl : (hmacSha256Base64 s b).length = header.length
    · simp [verifyShopifyWebhook, timingSafeEqualStr, hl]
      exact fun he => hne he.symm
    · simp [verifyShopifyWebhook, timingSafeEqualStr, hl]
  · intro s b
    simp [verifyShopifyWebhook, timingSafeEqualStr, hmacSha256Base64_length]

/-- C6 witness: the genuine signature verifies; the missing header and a
wrong-length header are rejected. -/
theorem c6_webhook_signature_witness :
    verifyShopifyWebhook sec6 body6 (hmacSha256Base64 sec6 body6) = true ∧
    verifyShopifyWebhook sec6 body6 [] = false ∧
    verifyShopifyWebhook sec6 body6 [65] = false :=
  ⟨c6_webhook_signature.1 sec6 body6,
   c6_webhook_signature.2.2.1 sec6 body6,
   c6_webhook_signature.2.1 sec6 body6 [65] (fun h => by
     have hlen := congrArg List.length h
     simp [hmacSha256Base64_length] at hlen)⟩

end BNGC
